import Mathlib

/-! WSTD SMTHR plugin panel: parameter mirroring and the render/interact pass.

Shallow embedding of `ImGuiPluginUI` from `override/HeavyDPF_WSTD_SMTHR_UI.cpp`:
the member fields, `parameterChanged` and `onImGuiDisplay`.

* A C++ `float` is its IEEE-754 binary32 bit pattern (`F32`); assignment copies the
  pattern, `value != 0.0f` is false exactly on the two zeros.
* The host (`repaint`, `editParameter`, `setParameterValue`) is modelled by the
  ordered list of calls a function makes.
* The rendering substrate (Dear ImGui, the knob and toggle widgets) is an input:
  for one pass it supplies what each widget call returns, what it leaves in the
  variable it was handed, and what `IsItemActivated` / `IsItemDeactivated` answer
  after it. The arguments handed to each widget are recorded in the result.
* Colours, fonts, layout and style calls do not touch the members or the host and
  are left out.
-/

namespace WstdSmthr

/-! ## binary32 values -/

/-- IEEE-754 binary32 bit pattern of a C++ `float`. -/
structure F32 where
  bits : Fin 4294967296
deriving DecidableEq

namespace F32

/-- Literal `0.0f`. -/
def zero : F32 := ⟨0x00000000⟩
/-- Literal `1.0f`. -/
def one : F32 := ⟨0x3F800000⟩
/-- Literal `50.0f`. -/
def fifty : F32 := ⟨0x42480000⟩
/-- Literal `100.0f`. -/
def hundred : F32 := ⟨0x42C80000⟩
/-- Literal `13.37f`. -/
def c13_37 : F32 := ⟨0x4155EB85⟩
/-- Literal `0.1f`. -/
def c0_1 : F32 := ⟨0x3DCCCCCD⟩
/-- Literal `0.01f`. -/
def c0_01 : F32 := ⟨0x3C23D70A⟩
/-- The value `75.0f` (used by the scenario of the specification). -/
def c75 : F32 := ⟨0x42960000⟩

/-- C++ `a != 0.0f`: false exactly for `+0.0` and `-0.0` (all bits below the sign
bit clear); true for every other pattern, NaN included. -/
def neZero (a : F32) : Bool := a.bits.val % 2147483648 != 0

/-- Implicit conversion `bool → float`: `true ↦ 1.0f`, `false ↦ 0.0f`. -/
def ofBool (b : Bool) : F32 := if b then one else zero

/-- Sign bit. -/
def sign (a : F32) : Bool := decide (2147483648 ≤ a.bits.val)

/-- Biased exponent field (8 bits). -/
def expField (a : F32) : Nat := (a.bits.val / 8388608) % 256

/-- Fraction field (23 bits). -/
def fraction (a : F32) : Nat := a.bits.val % 8388608

/-- Magnitude of a finite binary32 value, counted in units of `2^-149`. -/
def units (a : F32) : Nat :=
  if a.expField = 0 then a.fraction else (8388608 + a.fraction) * 2 ^ (a.expField - 1)

/-- Spacing of the binade of `a` (one unit in the last place), in units of `2^-149`. -/
def ulp (a : F32) : Nat := 2 ^ (a.expField - 1)

/-- The pattern `a` is the positive finite binary32 value that the decimal literal
`num / den` denotes: it lies strictly within half a unit in the last place of it. -/
def IsLiteral (a : F32) (num den : Nat) : Prop :=
  a.sign = false ∧ a.expField < 255 ∧ 0 < den ∧
    2 * ((a.units * den - num * 2 ^ 149) + (num * 2 ^ 149 - a.units * den)) < a.ulp * den

instance (a : F32) (num den : Nat) : Decidable (IsLiteral a num den) := by
  unfold IsLiteral; infer_instance

end F32

/-! ## The member fields -/

/-- Member fields of `ImGuiPluginUI` (the resize handle aside). -/
structure State where
  fcrshr : Int
  ffldr : F32
  flmtr : Bool
  fmix : F32
  fsmthr : F32
  fsqnc : Int
deriving DecidableEq

/-- Default member initialisers: `fcrshr = 512`, `ffldr = 1.0f`,
`flmtr = 1.0f != 0.0f`, `fmix = 50.0f`, `fsmthr = 1.0f`, `fsqnc = 0.0`. -/
def State.init : State :=
  { fcrshr := 512
    ffldr := F32.one
    flmtr := F32.neZero F32.one
    fmix := F32.fifty
    fsmthr := F32.one
    fsqnc := 0 }

/-! ## Host calls -/

/-- Outbound call to the host made by the UI. -/
inductive HostCall where
  | editParameter (index : Nat) (started : Bool)
  | setParameterValue (index : Nat) (value : F32)
deriving DecidableEq

/-- Result of `parameterChanged`: the members afterwards and whether `repaint()`
was called. -/
structure Changed where
  state : State
  repaint : Bool
deriving DecidableEq

/-- The method `parameterChanged(uint32_t index, float value)`: a `switch` on the
index, `default: return;` before the `repaint()`. -/
def parameterChanged (s : State) (index : Nat) (value : F32) : Changed :=
  match index with
  | 0 => ⟨{ s with flmtr := F32.neZero value }, true⟩
  | 1 => ⟨{ s with fmix := value }, true⟩
  | 2 => ⟨{ s with fsmthr := value }, true⟩
  | _ => ⟨s, false⟩

/-! ## The rendering substrate, as seen by one pass -/

/-- What the substrate answers for one `ImGuiKnobs::Knob` call. -/
structure KnobReport where
  /-- return value of `ImGuiKnobs::Knob(...)` -/
  ret : Bool
  /-- content of the `float` the knob was handed a pointer to, after the call -/
  value : F32
  /-- answer of `ImGui::IsItemActivated()` after the call -/
  activated : Bool
  /-- answer of `ImGui::IsItemDeactivated()` after the call -/
  deactivated : Bool
deriving DecidableEq

/-- What the substrate answers for the `ImGui::Toggle` call. -/
structure ToggleReport where
  /-- return value of `ImGui::Toggle(...)` -/
  ret : Bool
  /-- content of the `bool` the toggle was handed a pointer to, after the call -/
  value : Bool
  /-- answer of `ImGui::IsItemActivated()` after the call -/
  activated : Bool
  /-- answer of `ImGui::IsItemDeactivated()` after the call -/
  deactivated : Bool
deriving DecidableEq

/-- Answers for the three widgets submitted inside the window. -/
structure Reports where
  smthr : KnobReport
  lmtr : ToggleReport
  mix : KnobReport
deriving DecidableEq

/-- Everything the substrate supplies to one call of `onImGuiDisplay`. -/
structure Frame where
  /-- the flag `io.KeyShift` -/
  KeyShift : Bool
  /-- answer of `ImGui::IsMouseDoubleClicked(0)` during this pass -/
  MouseDoubleClicked : Bool
  /-- `none` when `ImGui::Begin` returns false (no widget is submitted),
  otherwise the answers for the widgets -/
  window : Option Reports
deriving DecidableEq

/-- A widget submitted to the substrate, with the arguments it is handed
(variant, size and flag arguments are left out). -/
inductive Widget where
  | knob (label : String) (value vMin vMax speed : F32) (format : String) (steps : Nat)
  | toggle (label : String) (value : Bool)
deriving DecidableEq

/-- Outcome of one call of `onImGuiDisplay`. -/
structure Pass where
  /-- the members afterwards -/
  state : State
  /-- host calls made, in order -/
  calls : List HostCall
  /-- widgets submitted, in order -/
  widgets : List Widget
deriving DecidableEq

/-- Local `elevstep`: `0.1f`, or `0.01f` when `io.KeyShift`. -/
def elevstep (fr : Frame) : F32 := if fr.KeyShift then F32.c0_01 else F32.c0_1

/-- Local `percstep`: `1.0f`, or `0.1f` when `io.KeyShift`. -/
def percstep (fr : Frame) : F32 := if fr.KeyShift then F32.c0_1 else F32.one

/-- The `Smthr` knob and the block guarded by it (lines 144-155): the knob writes
through `&fsmthr`; when it returns true, an activation opens the edit session of
index 2 and resets `fsmthr` to `1.0f` on a double click, then the value is sent. -/
def smthrKnob (fr : Frame) (k : KnobReport) (s : State) : State × List HostCall :=
  let s1 := { s with fsmthr := k.value }
  if k.ret then
    if k.activated then
      let s2 := if fr.MouseDoubleClicked then { s1 with fsmthr := F32.one } else s1
      (s2, [HostCall.editParameter 2 true, HostCall.setParameterValue 2 s2.fsmthr])
    else
      (s1, [HostCall.setParameterValue 2 s1.fsmthr])
  else
    (s1, [])

/-- The `##Lmtr` toggle and the block guarded by it (lines 177-184): the toggle
writes through `&flmtr`; when it returns true and the item was activated, the edit
session of index 0 is opened and the value is sent (as a `float`). -/
def lmtrToggle (t : ToggleReport) (s : State) : State × List HostCall :=
  let s1 := { s with flmtr := t.value }
  if t.ret then
    if t.activated then
      (s1, [HostCall.editParameter 0 true, HostCall.setParameterValue 0 (F32.ofBool s1.flmtr)])
    else
      (s1, [])
  else
    (s1, [])

/-- The `Mix` knob and the block guarded by it (lines 192-202): as for `Smthr`,
with index 1 and reset value `50.0f`. -/
def mixKnob (fr : Frame) (k : KnobReport) (s : State) : State × List HostCall :=
  let s1 := { s with fmix := k.value }
  if k.ret then
    if k.activated then
      let s2 := if fr.MouseDoubleClicked then { s1 with fmix := F32.fifty } else s1
      (s2, [HostCall.editParameter 1 true, HostCall.setParameterValue 1 s2.fmix])
    else
      (s1, [HostCall.setParameterValue 1 s1.fmix])
  else
    (s1, [])

/-- The block after the `Mix` knob (lines 206-211): `ImGui::IsItemDeactivated()`
is asked once, the last item submitted being the `Mix` knob. -/
def deactivatedBlock (r : Reports) : List HostCall :=
  if r.mix.deactivated then
    [HostCall.editParameter 0 false, HostCall.editParameter 1 false,
     HostCall.editParameter 2 false]
  else
    []

/-- The method `onImGuiDisplay()`: the steps are chosen from `io.KeyShift`; when
`ImGui::Begin` returns true the three widgets are submitted in the order `Smthr`,
`##Lmtr`, `Mix`, each seeded with the member at that point, followed by the
deactivation block. -/
def onImGuiDisplay (s : State) (fr : Frame) : Pass :=
  match fr.window with
  | none => ⟨s, [], []⟩
  | some r =>
    let w1 := Widget.knob "Smthr" s.fsmthr F32.one F32.c13_37 (elevstep fr) "%.2f" 11
    let k1 := smthrKnob fr r.smthr s
    let w2 := Widget.toggle "##Lmtr" k1.1.flmtr
    let k2 := lmtrToggle r.lmtr k1.1
    let w3 := Widget.knob "Mix" k2.1.fmix F32.zero F32.hundred (percstep fr) "%.1f%%" 11
    let k3 := mixKnob fr r.mix k2.1
    ⟨k3.1, k1.2 ++ k2.2 ++ k3.2 ++ deactivatedBlock r, [w1, w2, w3]⟩

/-- Values carried by the `setParameterValue` calls for `index`, in order. -/
def setValues (index : Nat) : List HostCall → List F32
  | [] => []
  | HostCall.setParameterValue i v :: cs =>
    if i = index then v :: setValues index cs else setValues index cs
  | HostCall.editParameter _ _ :: cs => setValues index cs

/-- Substrate answers in which no widget reports anything and every pointer is
left as seeded from `s`. -/
def Reports.idle (s : State) : Reports :=
  { smthr := ⟨false, s.fsmthr, false, false⟩
    lmtr := ⟨false, s.flmtr, false, false⟩
    mix := ⟨false, s.fmix, false, false⟩ }

/-- The steps `fine` and `coarse` are the binary32 values of the decimal literals
`num / den` and `10 * num / den`: the literal of `fine` is ten times smaller. -/
def F32.TenTimesFiner (fine coarse : F32) (num den : Nat) : Prop :=
  F32.IsLiteral fine num den ∧ F32.IsLiteral coarse (10 * num) den

/-- Members with the Smoother at `13.37f` and the Mix at `75.0f`, as left by
`parameterChanged(2, 13.37f)` and `parameterChanged(1, 75.0f)` on the constructed
panel. -/
def State.moved : State :=
  (parameterChanged (parameterChanged State.init 2 F32.c13_37).state 1 F32.c75).state

/-- A pass input: no modifier, no double click, window open, answers `r`. -/
def Frame.plain (r : Reports) : Frame := ⟨false, false, some r⟩

/-- A pass input: no modifier, mouse double-clicked, window open, answers `r`. -/
def Frame.doubleClick (r : Reports) : Frame := ⟨false, true, some r⟩

/-- Answers on `s`: the `Smthr` knob is activated but returns false and leaves its
value alone; nothing else happens. -/
def Reports.smthrPressed (s : State) : Reports :=
  { Reports.idle s with smthr := ⟨false, s.fsmthr, true, false⟩ }

/-- Answers on `s`: the `Mix` knob is activated but returns false and leaves its
value alone; nothing else happens. -/
def Reports.mixPressed (s : State) : Reports :=
  { Reports.idle s with mix := ⟨false, s.fmix, true, false⟩ }

/-- Answers on `s`: the toggle returns true having flipped its value, on a frame
where it is not reported as activated; nothing else happens. -/
def Reports.lmtrFlippedLate (s : State) : Reports :=
  { Reports.idle s with lmtr := ⟨true, !s.flmtr, false, false⟩ }

/-- Answers on `s`: the `Smthr` knob returns true with value `v` on the frame it is
activated; nothing else happens. -/
def Reports.smthrGrabbed (s : State) (v : F32) : Reports :=
  { Reports.idle s with smthr := ⟨true, v, true, false⟩ }

/-- Answers on `s`: interaction with the `Smthr` knob has just ended; nothing else
happens. -/
def Reports.smthrReleased (s : State) : Reports :=
  { Reports.idle s with smthr := ⟨false, s.fsmthr, false, true⟩ }

/-- Answers on `s`: the toggle returns true having flipped its value on the frame
it is activated; nothing else happens. -/
def Reports.lmtrClicked (s : State) : Reports :=
  { Reports.idle s with lmtr := ⟨true, !s.flmtr, true, false⟩ }

/-- Answers on `s`: interaction with the toggle has just ended; nothing else
happens. -/
def Reports.lmtrReleased (s : State) : Reports :=
  { Reports.idle s with lmtr := ⟨false, s.flmtr, false, true⟩ }

/-- Answers on `s`: interaction with the `Mix` knob has just ended; nothing else
happens. -/
def Reports.mixReleased (s : State) : Reports :=
  { Reports.idle s with mix := ⟨false, s.fmix, false, true⟩ }

/-! ## Facts about the constants -/

/-- The bit patterns used for the source literals are the binary32 values of
those decimals. -/
theorem F32.literals :
    F32.IsLiteral F32.zero 0 1 ∧ F32.IsLiteral F32.one 1 1 ∧
    F32.IsLiteral F32.fifty 50 1 ∧ F32.IsLiteral F32.hundred 100 1 ∧
    F32.IsLiteral F32.c13_37 1337 100 ∧ F32.IsLiteral F32.c0_1 1 10 ∧
    F32.IsLiteral F32.c0_01 1 100 ∧ F32.IsLiteral F32.c75 75 1 := by
  decide

/-- The widgets of a pass whose window is open: the three controls in source
order, each handed the member as it is when the pass begins. -/
theorem widgets_of_open (s : State) (shift dbl : Bool) (r : Reports) :
    (onImGuiDisplay s ⟨shift, dbl, some r⟩).widgets =
      [Widget.knob "Smthr" s.fsmthr F32.one F32.c13_37 (elevstep ⟨shift, dbl, some r⟩) "%.2f" 11,
       Widget.toggle "##Lmtr" s.flmtr,
       Widget.knob "Mix" s.fmix F32.zero F32.hundred (percstep ⟨shift, dbl, some r⟩) "%.1f%%" 11] := by
  simp only [onImGuiDisplay, smthrKnob, lmtrToggle, mixKnob]
  cases r.smthr.ret <;> cases r.smthr.activated <;> cases dbl <;>
    cases r.lmtr.ret <;> cases r.lmtr.activated <;> simp

/-- A pass whose window is closed does nothing. -/
theorem closed_window (s : State) (shift dbl : Bool) :
    onImGuiDisplay s ⟨shift, dbl, none⟩ = ⟨s, [], []⟩ := rfl

/-! ## Inbound notification -/

/-- C1: for each index in 0, 1, 2 and every float `v` (no range condition, no
clamping), after `parameterChanged` the mirrored entry holds `v` (Mix, Smoother)
or `v != 0` (Limiter), and the next pass with an open window hands exactly that
entry to the corresponding widget. -/
theorem C1_notification_seeds_next_pass (s : State) (v : F32) (shift dbl : Bool)
    (r : Reports) :
    ((parameterChanged s 0 v).state.flmtr = F32.neZero v ∧
      Widget.toggle "##Lmtr" (F32.neZero v) ∈
        (onImGuiDisplay (parameterChanged s 0 v).state ⟨shift, dbl, some r⟩).widgets) ∧
    ((parameterChanged s 1 v).state.fmix = v ∧
      Widget.knob "Mix" v F32.zero F32.hundred (percstep ⟨shift, dbl, some r⟩) "%.1f%%" 11 ∈
        (onImGuiDisplay (parameterChanged s 1 v).state ⟨shift, dbl, some r⟩).widgets) ∧
    ((parameterChanged s 2 v).state.fsmthr = v ∧
      Widget.knob "Smthr" v F32.one F32.c13_37 (elevstep ⟨shift, dbl, some r⟩) "%.2f" 11 ∈
        (onImGuiDisplay (parameterChanged s 2 v).state ⟨shift, dbl, some r⟩).widgets) := by
  refine ⟨⟨rfl, ?_⟩, ⟨rfl, ?_⟩, ⟨rfl, ?_⟩⟩ <;>
    rw [widgets_of_open] <;> simp [parameterChanged]

/-- C2: `parameterChanged` on an index other than 0, 1, 2 returns the members
unchanged and does not call `repaint()`; being a total function it raises
nothing. -/
theorem C2_unknown_index_ignored (s : State) (index : Nat) (v : F32)
    (h : index ≠ 0 ∧ index ≠ 1 ∧ index ≠ 2) :
    parameterChanged s index v = ⟨s, false⟩ := by
  obtain ⟨h0, h1, h2⟩ := h
  match index, h0, h1, h2 with
  | 0, h0, _, _ => exact absurd rfl h0
  | 1, _, h1, _ => exact absurd rfl h1
  | 2, _, _, h2 => exact absurd rfl h2
  | _ + 3, _, _, _ => rfl

/-- Witness of C2 at the largest `uint32_t` index. -/
theorem C2_unknown_index_ignored_witness :
    (4294967295 ≠ 0 ∧ 4294967295 ≠ 1 ∧ 4294967295 ≠ 2) ∧
      parameterChanged State.init 4294967295 F32.c75 = ⟨State.init, false⟩ :=
  ⟨by decide, C2_unknown_index_ignored State.init 4294967295 F32.c75 (by decide)⟩

/-- C3: the constructed members are Limiter `true`, Mix `50.0f`, Smoother `1.0f`;
`parameterChanged(1, 75.0f)` on them gives Mix `75.0f`, and the next pass with an
open window hands `75.0f` to the Mix knob. -/
theorem C3_construct_then_mix_75 (shift dbl : Bool) (r : Reports) :
    (State.init.flmtr = true ∧ State.init.fmix = F32.fifty ∧ State.init.fsmthr = F32.one) ∧
    (F32.IsLiteral F32.fifty 50 1 ∧ F32.IsLiteral F32.one 1 1 ∧ F32.IsLiteral F32.c75 75 1) ∧
    (parameterChanged State.init 1 F32.c75).state.fmix = F32.c75 ∧
    Widget.knob "Mix" F32.c75 F32.zero F32.hundred (percstep ⟨shift, dbl, some r⟩) "%.1f%%" 11 ∈
      (onImGuiDisplay (parameterChanged State.init 1 F32.c75).state
        ⟨shift, dbl, some r⟩).widgets := by
  refine ⟨by decide, by decide, rfl, ?_⟩
  rw [widgets_of_open]
  simp [parameterChanged]

/-- C10: `parameterChanged` never touches `fcrshr`, `ffldr`, `fsqnc`, and touches a
mirrored parameter only when called with its index; two calls on distinct indices
commute, and of two calls on the same index the later one decides the members. -/
theorem C10_frame_and_order (s : State) (i j : Nat) (v w : F32) :
    ((parameterChanged s i v).state.fcrshr = s.fcrshr ∧
      (parameterChanged s i v).state.ffldr = s.ffldr ∧
      (parameterChanged s i v).state.fsqnc = s.fsqnc) ∧
    ((i ≠ 0 → (parameterChanged s i v).state.flmtr = s.flmtr) ∧
      (i ≠ 1 → (parameterChanged s i v).state.fmix = s.fmix) ∧
      (i ≠ 2 → (parameterChanged s i v).state.fsmthr = s.fsmthr)) ∧
    (i ≠ j → (parameterChanged (parameterChanged s i v).state j w).state =
      (parameterChanged (parameterChanged s j w).state i v).state) ∧
    (parameterChanged (parameterChanged s i v).state i w).state =
      (parameterChanged s i w).state := by
  rcases i with _ | _ | _ | i <;> rcases j with _ | _ | _ | j <;>
    simp [parameterChanged]

/-- Witness of C10 on the indices 1 and 2 of the constructed members. -/
theorem C10_frame_and_order_witness :
    (parameterChanged State.init 1 F32.c75).state.fsmthr = State.init.fsmthr ∧
    (parameterChanged (parameterChanged State.init 1 F32.c75).state 2 F32.c13_37).state =
      (parameterChanged (parameterChanged State.init 2 F32.c13_37).state 1 F32.c75).state :=
  ⟨(C10_frame_and_order State.init 1 2 F32.c75 F32.c13_37).2.1.2.2 (by decide),
   (C10_frame_and_order State.init 1 2 F32.c75 F32.c13_37).2.2.1 (by decide)⟩


/-! ## The render/interact pass -/

/-- The host calls of a pass whose window is open, block by block. -/
theorem calls_of_open (s : State) (shift dbl : Bool) (r : Reports) :
    (onImGuiDisplay s ⟨shift, dbl, some r⟩).calls =
      (if r.smthr.ret then
        (if r.smthr.activated then
          [HostCall.editParameter 2 true,
           HostCall.setParameterValue 2 (if dbl then F32.one else r.smthr.value)]
         else [HostCall.setParameterValue 2 r.smthr.value])
       else []) ++
      (if r.lmtr.ret then
        (if r.lmtr.activated then
          [HostCall.editParameter 0 true,
           HostCall.setParameterValue 0 (F32.ofBool r.lmtr.value)]
         else [])
       else []) ++
      (if r.mix.ret then
        (if r.mix.activated then
          [HostCall.editParameter 1 true,
           HostCall.setParameterValue 1 (if dbl then F32.fifty else r.mix.value)]
         else [HostCall.setParameterValue 1 r.mix.value])
       else []) ++
      (if r.mix.deactivated then
        [HostCall.editParameter 0 false, HostCall.editParameter 1 false,
         HostCall.editParameter 2 false]
       else []) := by
  simp only [onImGuiDisplay, smthrKnob, lmtrToggle, mixKnob, deactivatedBlock]
  cases r.smthr.ret <;> cases r.smthr.activated <;> cases dbl <;>
    cases r.lmtr.ret <;> cases r.lmtr.activated <;>
    cases r.mix.ret <;> cases r.mix.activated <;> simp

/-- The members after a pass whose window is open. -/
theorem state_of_open (s : State) (shift dbl : Bool) (r : Reports) :
    (onImGuiDisplay s ⟨shift, dbl, some r⟩).state =
      { s with
        fsmthr := if r.smthr.ret && r.smthr.activated && dbl then F32.one else r.smthr.value
        flmtr := r.lmtr.value
        fmix := if r.mix.ret && r.mix.activated && dbl then F32.fifty else r.mix.value } := by
  simp only [onImGuiDisplay, smthrKnob, lmtrToggle, mixKnob]
  cases r.smthr.ret <;> cases r.smthr.activated <;> cases dbl <;>
    cases r.lmtr.ret <;> cases r.lmtr.activated <;>
    cases r.mix.ret <;> cases r.mix.activated <;> simp

/-- C4: from the constructed members, a pass in which the toggle returns true on
the frame it is activated, having flipped the Limiter to false, while neither knob
returns true and the `Mix` knob is not deactivated, makes exactly the calls
`editParameter(0, true)`, `setParameterValue(0, false)` in that order and leaves
the Limiter false. -/
theorem C4_limiter_toggle_sequence (shift dbl : Bool) (r : Reports)
    (hret : r.lmtr.ret = true) (hact : r.lmtr.activated = true)
    (hval : r.lmtr.value = !State.init.flmtr)
    (hsmthr : r.smthr.ret = false) (hmix : r.mix.ret = false)
    (hrel : r.mix.deactivated = false) :
    (onImGuiDisplay State.init ⟨shift, dbl, some r⟩).calls =
      [HostCall.editParameter 0 true, HostCall.setParameterValue 0 (F32.ofBool false)] ∧
    (onImGuiDisplay State.init ⟨shift, dbl, some r⟩).state.flmtr = false := by
  have hv : r.lmtr.value = false := by rw [hval]; decide
  rw [calls_of_open, state_of_open]
  simp [hret, hact, hv, hsmthr, hmix, hrel]

/-- Witness of C4: the toggle is clicked on the constructed panel. -/
theorem C4_limiter_toggle_sequence_witness :
    (onImGuiDisplay State.init (Frame.plain (Reports.lmtrClicked State.init))).calls =
      [HostCall.editParameter 0 true, HostCall.setParameterValue 0 (F32.ofBool false)] ∧
    (onImGuiDisplay State.init (Frame.plain (Reports.lmtrClicked State.init))).state.flmtr
      = false :=
  C4_limiter_toggle_sequence false false (Reports.lmtrClicked State.init)
    (by decide) (by decide) (by decide) (by decide) (by decide) (by decide)

/-- The batched close is made exactly on the passes where the `Mix` knob, the last
item submitted, is reported as deactivated. -/
theorem close_iff_mix_deactivated (s : State) (shift dbl : Bool) (r : Reports) (i : Nat) :
    HostCall.editParameter i false ∈ (onImGuiDisplay s ⟨shift, dbl, some r⟩).calls ↔
      r.mix.deactivated = true ∧ (i = 0 ∨ i = 1 ∨ i = 2) := by
  rw [calls_of_open]
  cases r.smthr.ret <;> cases r.smthr.activated <;>
    cases r.lmtr.ret <;> cases r.lmtr.activated <;>
    cases r.mix.ret <;> cases r.mix.activated <;> cases r.mix.deactivated <;> simp

/-- C5 (the code at the failing inputs): grabbing the `Smthr` knob opens the edit
session of index 2, and the pass on which that knob is reported as deactivated
makes no host call at all; likewise clicking the toggle opens the session of
index 0 and the pass on which the toggle is reported as deactivated makes no host
call. Only the deactivation of the `Mix` knob yields the three closing calls. -/
theorem C5_only_mix_release_closes :
    (onImGuiDisplay State.init
        (Frame.plain (Reports.smthrGrabbed State.init F32.c13_37))).calls =
      [HostCall.editParameter 2 true, HostCall.setParameterValue 2 F32.c13_37] ∧
    (onImGuiDisplay State.moved (Frame.plain (Reports.smthrReleased State.moved))).calls
      = [] ∧
    (onImGuiDisplay State.init (Frame.plain (Reports.lmtrClicked State.init))).calls =
      [HostCall.editParameter 0 true, HostCall.setParameterValue 0 F32.zero] ∧
    (onImGuiDisplay State.init (Frame.plain (Reports.lmtrReleased State.init))).calls
      = [] ∧
    (onImGuiDisplay State.init (Frame.plain (Reports.mixReleased State.init))).calls =
      [HostCall.editParameter 0 false, HostCall.editParameter 1 false,
       HostCall.editParameter 2 false] := by
  decide

/-- C6, as stated, fails: on a pass where the mouse is double-clicked and the
`Smthr` knob is activated but returns false, the Smoother stays at `13.37f` and no
value is sent for index 2; the same with the `Mix` knob, which stays at `75.0f`. -/
theorem C6_counterexample :
    (Reports.smthrPressed State.moved).smthr.activated = true ∧
    (onImGuiDisplay State.moved
        (Frame.doubleClick (Reports.smthrPressed State.moved))).state.fsmthr ≠ F32.one ∧
    setValues 2 (onImGuiDisplay State.moved
        (Frame.doubleClick (Reports.smthrPressed State.moved))).calls = [] ∧
    (Reports.mixPressed State.moved).mix.activated = true ∧
    (onImGuiDisplay State.moved
        (Frame.doubleClick (Reports.mixPressed State.moved))).state.fmix ≠ F32.fifty ∧
    setValues 1 (onImGuiDisplay State.moved
        (Frame.doubleClick (Reports.mixPressed State.moved))).calls = [] := by
  decide

/-- C6, amended: on every pass where the mouse is double-clicked and the `Smthr`
knob returns true on the frame it is activated, the Smoother is `1.0f` afterwards
and exactly one value is sent for index 2, namely `1.0f`; likewise for the `Mix`
knob, `50.0f` and index 1. -/
theorem C6_double_click_reset (s : State) (shift : Bool) (r : Reports) :
    (r.smthr.ret = true → r.smthr.activated = true →
      (onImGuiDisplay s ⟨shift, true, some r⟩).state.fsmthr = F32.one ∧
      setValues 2 (onImGuiDisplay s ⟨shift, true, some r⟩).calls = [F32.one]) ∧
    (r.mix.ret = true → r.mix.activated = true →
      (onImGuiDisplay s ⟨shift, true, some r⟩).state.fmix = F32.fifty ∧
      setValues 1 (onImGuiDisplay s ⟨shift, true, some r⟩).calls = [F32.fifty]) := by
  rw [calls_of_open, state_of_open]
  constructor
  · intro h1 h2
    cases h3 : r.lmtr.ret <;> cases h4 : r.lmtr.activated <;>
      cases h5 : r.mix.ret <;> cases h6 : r.mix.activated <;>
      cases h7 : r.mix.deactivated <;> simp [h1, h2, setValues]
  · intro h1 h2
    cases h3 : r.lmtr.ret <;> cases h4 : r.lmtr.activated <;>
      cases h5 : r.smthr.ret <;> cases h6 : r.smthr.activated <;>
      cases h7 : r.mix.deactivated <;> simp [h1, h2, setValues]

/-- Witness of the amended C6: a double click that both knobs report. -/
theorem C6_double_click_reset_witness :
    (onImGuiDisplay State.moved
      ⟨false, true, some ⟨⟨true, F32.c13_37, true, false⟩, ⟨false, true, false, false⟩,
        ⟨true, F32.c75, true, false⟩⟩⟩).state.fsmthr = F32.one ∧
    setValues 1 (onImGuiDisplay State.moved
      ⟨false, true, some ⟨⟨true, F32.c13_37, true, false⟩, ⟨false, true, false, false⟩,
        ⟨true, F32.c75, true, false⟩⟩⟩).calls = [F32.fifty] :=
  ⟨((C6_double_click_reset State.moved false
      ⟨⟨true, F32.c13_37, true, false⟩, ⟨false, true, false, false⟩,
        ⟨true, F32.c75, true, false⟩⟩).1 rfl rfl).1,
   ((C6_double_click_reset State.moved false
      ⟨⟨true, F32.c13_37, true, false⟩, ⟨false, true, false, false⟩,
        ⟨true, F32.c75, true, false⟩⟩).2 rfl rfl).2⟩

/-- C7: on every pass with an open window the `Mix` knob is handed the step `0.1f`
when `io.KeyShift` is set and `1.0f` otherwise, the `Smthr` knob `0.01f` when it is
set and `0.1f` otherwise; for both knobs the fine step is the binary32 value of a
decimal literal ten times smaller than that of the coarse step; the ranges handed
over, `1.0f .. 13.37f` and `0.0f .. 100.0f`, are the same in both cases. -/
theorem C7_modifier_steps (s : State) (shift dbl : Bool) (r : Reports) :
    (onImGuiDisplay s ⟨shift, dbl, some r⟩).widgets =
      [Widget.knob "Smthr" s.fsmthr F32.one F32.c13_37
         (if shift then F32.c0_01 else F32.c0_1) "%.2f" 11,
       Widget.toggle "##Lmtr" s.flmtr,
       Widget.knob "Mix" s.fmix F32.zero F32.hundred
         (if shift then F32.c0_1 else F32.one) "%.1f%%" 11] ∧
    F32.TenTimesFiner (percstep ⟨true, dbl, some r⟩) (percstep ⟨false, dbl, some r⟩) 1 10 ∧
    F32.TenTimesFiner (elevstep ⟨true, dbl, some r⟩) (elevstep ⟨false, dbl, some r⟩) 1 100 ∧
    (F32.IsLiteral F32.one 1 1 ∧ F32.IsLiteral F32.c13_37 1337 100 ∧
      F32.IsLiteral F32.zero 0 1 ∧ F32.IsLiteral F32.hundred 100 1) := by
  refine ⟨?_, ?_, ?_, ?_⟩
  · rw [widgets_of_open]; rfl
  · simp only [percstep, F32.TenTimesFiner, if_true, Bool.false_eq_true, if_false]; decide
  · simp only [elevstep, F32.TenTimesFiner, if_true, Bool.false_eq_true, if_false]; decide
  · decide

/-- C8, as stated, fails for the Limiter: on a pass where the toggle returns true
having flipped the Limiter to false, but is not reported as activated on that
frame, the member is false afterwards and no host call is made, so
`setParameterValue(0, false)` is not among the calls. -/
theorem C8_counterexample :
    (Reports.lmtrFlippedLate State.init).lmtr.ret = true ∧
    (Reports.lmtrFlippedLate State.init).lmtr.value = false ∧
    (onImGuiDisplay State.init
      (Frame.plain (Reports.lmtrFlippedLate State.init))).state.flmtr = false ∧
    HostCall.setParameterValue 0 (F32.ofBool false) ∉
      (onImGuiDisplay State.init
        (Frame.plain (Reports.lmtrFlippedLate State.init))).calls := by
  decide

/-- C8, amended: on every pass where a knob (`Smthr`, index 2; `Mix`, index 1)
returns true having written `w`, without the reset gesture on it (activation
together with a double click), the member equals `w` afterwards and
`setParameterValue(index, w)` is among the calls; on every pass where the toggle
returns true having written `w`, the Limiter equals `w` afterwards, and
`setParameterValue(0, w)` is among the calls when the toggle is reported as
activated on that frame. -/
theorem C8_change_is_mirrored_and_sent (s : State) (shift dbl : Bool) (r : Reports) :
    (r.smthr.ret = true → ¬ (r.smthr.activated = true ∧ dbl = true) →
      (onImGuiDisplay s ⟨shift, dbl, some r⟩).state.fsmthr = r.smthr.value ∧
      HostCall.setParameterValue 2 r.smthr.value ∈
        (onImGuiDisplay s ⟨shift, dbl, some r⟩).calls) ∧
    (r.mix.ret = true → ¬ (r.mix.activated = true ∧ dbl = true) →
      (onImGuiDisplay s ⟨shift, dbl, some r⟩).state.fmix = r.mix.value ∧
      HostCall.setParameterValue 1 r.mix.value ∈
        (onImGuiDisplay s ⟨shift, dbl, some r⟩).calls) ∧
    (r.lmtr.ret = true →
      (onImGuiDisplay s ⟨shift, dbl, some r⟩).state.flmtr = r.lmtr.value ∧
      (r.lmtr.activated = true →
        HostCall.setParameterValue 0 (F32.ofBool r.lmtr.value) ∈
          (onImGuiDisplay s ⟨shift, dbl, some r⟩).calls)) := by
  rw [calls_of_open, state_of_open]
  refine ⟨?_, ?_, ?_⟩
  · intro h1 h2
    cases h3 : r.smthr.activated <;> cases h4 : dbl <;> simp_all
  · intro h1 h2
    cases h3 : r.mix.activated <;> cases h4 : dbl <;> simp_all
  · intro h1
    refine ⟨rfl, ?_⟩
    intro h2
    simp [h1, h2]

/-- Witness of the amended C8: a drag frame of the `Smthr` knob, a drag frame of
the `Mix` knob and a click on the toggle. -/
theorem C8_change_is_mirrored_and_sent_witness :
    HostCall.setParameterValue 2 F32.c13_37 ∈
      (onImGuiDisplay State.init ⟨false, false,
        some ⟨⟨true, F32.c13_37, false, false⟩, ⟨true, false, true, false⟩,
          ⟨true, F32.c75, false, false⟩⟩⟩).calls ∧
    (onImGuiDisplay State.init ⟨false, false,
        some ⟨⟨true, F32.c13_37, false, false⟩, ⟨true, false, true, false⟩,
          ⟨true, F32.c75, false, false⟩⟩⟩).state.fmix = F32.c75 ∧
    HostCall.setParameterValue 0 (F32.ofBool false) ∈
      (onImGuiDisplay State.init ⟨false, false,
        some ⟨⟨true, F32.c13_37, false, false⟩, ⟨true, false, true, false⟩,
          ⟨true, F32.c75, false, false⟩⟩⟩).calls :=
  ⟨((C8_change_is_mirrored_and_sent State.init false false
      ⟨⟨true, F32.c13_37, false, false⟩, ⟨true, false, true, false⟩,
        ⟨true, F32.c75, false, false⟩⟩).1 rfl (by decide)).2,
   ((C8_change_is_mirrored_and_sent State.init false false
      ⟨⟨true, F32.c13_37, false, false⟩, ⟨true, false, true, false⟩,
        ⟨true, F32.c75, false, false⟩⟩).2.1 rfl (by decide)).1,
   ((C8_change_is_mirrored_and_sent State.init false false
      ⟨⟨true, F32.c13_37, false, false⟩, ⟨true, false, true, false⟩,
        ⟨true, F32.c75, false, false⟩⟩).2.2 rfl).2 rfl⟩

/-- C9, as stated, fails: on a pass where the `Smthr` knob is reported as activated
but returns false, no host call is made, so `editParameter(2, true)` is not among
the calls. -/
theorem C9_counterexample :
    (Reports.smthrPressed State.init).smthr.activated = true ∧
    HostCall.editParameter 2 true ∉
      (onImGuiDisplay State.init
        (Frame.plain (Reports.smthrPressed State.init))).calls := by
  decide

/-- C9, amended: on every pass where a control is reported as activated and its
widget call returns true on that frame, `editParameter(index, true)` is among the
calls, for `Smthr` (index 2), the toggle (index 0) and `Mix` (index 1). -/
theorem C9_edit_opens_on_reported_start (s : State) (shift dbl : Bool) (r : Reports) :
    (r.smthr.activated = true → r.smthr.ret = true →
      HostCall.editParameter 2 true ∈ (onImGuiDisplay s ⟨shift, dbl, some r⟩).calls) ∧
    (r.lmtr.activated = true → r.lmtr.ret = true →
      HostCall.editParameter 0 true ∈ (onImGuiDisplay s ⟨shift, dbl, some r⟩).calls) ∧
    (r.mix.activated = true → r.mix.ret = true →
      HostCall.editParameter 1 true ∈ (onImGuiDisplay s ⟨shift, dbl, some r⟩).calls) := by
  rw [calls_of_open]
  refine ⟨?_, ?_, ?_⟩ <;> intro h1 h2 <;> simp [h1, h2]

/-- Witness of the amended C9: all three controls grabbed on one pass. -/
theorem C9_edit_opens_on_reported_start_witness :
    HostCall.editParameter 2 true ∈
      (onImGuiDisplay State.init ⟨true, false,
        some ⟨⟨true, F32.c13_37, true, false⟩, ⟨true, false, true, false⟩,
          ⟨true, F32.c75, true, false⟩⟩⟩).calls ∧
    HostCall.editParameter 0 true ∈
      (onImGuiDisplay State.init ⟨true, false,
        some ⟨⟨true, F32.c13_37, true, false⟩, ⟨true, false, true, false⟩,
          ⟨true, F32.c75, true, false⟩⟩⟩).calls ∧
    HostCall.editParameter 1 true ∈
      (onImGuiDisplay State.init ⟨true, false,
        some ⟨⟨true, F32.c13_37, true, false⟩, ⟨true, false, true, false⟩,
          ⟨true, F32.c75, true, false⟩⟩⟩).calls :=
  ⟨(C9_edit_opens_on_reported_start State.init true false
      ⟨⟨true, F32.c13_37, true, false⟩, ⟨true, false, true, false⟩,
        ⟨true, F32.c75, true, false⟩⟩).1 rfl rfl,
   (C9_edit_opens_on_reported_start State.init true false
      ⟨⟨true, F32.c13_37, true, false⟩, ⟨true, false, true, false⟩,
        ⟨true, F32.c75, true, false⟩⟩).2.1 rfl rfl,
   (C9_edit_opens_on_reported_start State.init true false
      ⟨⟨true, F32.c13_37, true, false⟩, ⟨true, false, true, false⟩,
        ⟨true, F32.c75, true, false⟩⟩).2.2 rfl rfl⟩

end WstdSmthr
